import Mathlib

/-!
Verification of the state-synchronization contract of the Xiaomi AC companion
climate platform (`custom_components/climate/xiaomi_miio.py`).

The shallow embedding below models the `XiaomiAirConditioningCompanion` entity
as an explicit state record `Entity`, and each coroutine method as a pure state
transformer.  Device I/O outcomes (the acknowledgment list returned by the
vendor library, or a raised `DeviceException`) are supplied as explicit inputs
of type `DeviceResult` / `PollResult`.  Observable side effects other than the
state mutation (configuration pushes handed to the device, error-log lines)
are returned as a list of `Event`s.
-/

namespace XiaomiAC

/-- `SUCCESS = ['ok']` (line 31 of the source): the device acknowledgment that
`_try_command` treats as success. -/
def SUCCESS : List String := ["ok"]

/-- Led setting of the configuration-push envelope (`Led.On` / `Led.Off` of the
vendor library).  `_send_configuration` always sends `Led.Off`. -/
inductive LedSetting where
  | on
  | off
deriving DecidableEq, Repr

/-- The seven-field bundle handed to `device.send_configuration` by
`_send_configuration`.  The non-model fields are carried as the `Option`
values the method reads off the entity (a `none` here models the Python
runtime error that reading an unset field would raise, e.g.
`int(None)` / `OperationMode[None]`). -/
structure PushConfig where
  model : String
  power : Option Bool
  mode : Option String
  target_temperature : Option ℚ
  fan_speed : Option String
  swing_mode : Option String
  led : LedSetting
deriving DecidableEq, Repr

/-- Observable effects of one method call: a configuration push handed to the
device, or an error line written by `_LOGGER.error`. -/
inductive Event where
  | push (p : PushConfig)
  | errorLog
deriving DecidableEq, Repr

/-- Outcome of one adapter call dispatched through `_try_command`: either the
device answered with an acknowledgment list, or the call raised a
`DeviceException` at the transport level. -/
inductive DeviceResult where
  | ack (response : List String)
  | exc
deriving DecidableEq, Repr

/-- The status record returned by `device.status()` on a successful poll
(fields read by `async_update`; enum-valued fields are carried by their
`.name` string exactly as the source reads them). -/
structure Status where
  is_on : Bool
  air_condition_model : String
  load_power : ℤ
  target_temperature : ℚ
  swing_mode : String
  fan_speed : String
  mode : String
  led : String
deriving DecidableEq, Repr

/-- Outcome of one `device.status()` poll: a status record, or a raised
`DeviceException`. -/
inductive PollResult where
  | ok (s : Status)
  | exc
deriving DecidableEq, Repr

/-- The `self._state_attrs` dictionary: it holds exactly the seven keys
initialized at lines 112-120 and overwritten together by `async_update`. -/
structure StateAttrs where
  ac_model : Option String
  load_power : Option ℤ
  temperature : Option ℚ
  swing_mode : Option String
  fan_speed : Option String
  operation_mode : Option String
  led : Option String
deriving DecidableEq, Repr

/-- The mutable state of `XiaomiAirConditioningCompanion`.  Source attribute
`_x` is embedded as field `x`. -/
structure Entity where
  available : Bool
  state : Option Bool
  state_attrs : StateAttrs
  current_temperature : Option ℚ
  current_swing_mode : Option String
  current_operation : Option String
  current_fan_mode : Option String
  air_condition_model : Option String
  target_temperature : Option ℚ
deriving DecidableEq, Repr

/-- `__init__` (lines 110-129): availability false, all cached fields unset. -/
def initEntity : Entity :=
  { available := false
    state := none
    state_attrs :=
      { ac_model := none, load_power := none, temperature := none
        swing_mode := none, fan_speed := none, operation_mode := none
        led := none }
    current_temperature := none
    current_swing_mode := none
    current_operation := none
    current_fan_mode := none
    air_condition_model := none
    target_temperature := none }

/-- `_try_command` (lines 159-173): run the adapter call; on an acknowledgment
return whether it equals `SUCCESS`; on a `DeviceException` log the error, set
`_available = False` and return `False`.  The exception is consumed here
(the embedding is a total function), never propagated. -/
def try_command (e : Entity) (r : DeviceResult) : Entity × Bool × List Event :=
  match r with
  | .ack response => (e, response == SUCCESS, [])
  | .exc => ({ e with available := false }, false, [.errorLog])

/-- `async_turn_on` (lines 175-182): dispatch `device.on`; only on success set
the local on/off flag to true. -/
def async_turn_on (e : Entity) (r : DeviceResult) : Entity × List Event :=
  let (e1, result, ev) := try_command e r
  (if result then { e1 with state := some true } else e1, ev)

/-- `async_turn_off` (lines 184-191): dispatch `device.off`; only on success
set the local on/off flag to false. -/
def async_turn_off (e : Entity) (r : DeviceResult) : Entity × List Event :=
  let (e1, result, ev) := try_command e r
  (if result then { e1 with state := some false } else e1, ev)

/-- `async_update` (lines 193-226): on a successful `device.status()` set
availability, replace the on/off flag, all seven `_state_attrs` entries and
the four current-mode/target fields, and latch `_air_condition_model` only if
it is still `None`; on a `DeviceException` log and set availability false,
touching nothing else. -/
def async_update (e : Entity) (r : PollResult) : Entity × List Event :=
  match r with
  | .ok s =>
      ({ e with
          available := true
          state := some s.is_on
          state_attrs :=
            { ac_model := some s.air_condition_model
              load_power := some s.load_power
              temperature := some s.target_temperature
              swing_mode := some s.swing_mode
              fan_speed := some s.fan_speed
              operation_mode := some s.mode
              led := some s.led }
          current_operation := some s.mode
          target_temperature := some s.target_temperature
          current_fan_mode := some s.fan_speed
          current_swing_mode := some s.swing_mode
          air_condition_model :=
            match e.air_condition_model with
            | none => some s.air_condition_model
            | some m => some m }, [])
  | .exc => ({ e with available := false }, [.errorLog])

/-- `_send_configuration` (lines 355-374): if the model is known, hand the
seven-field bundle (model, power from the on/off flag, operation mode, target
temperature, fan speed, swing mode, and the constant `Led.Off`) to
`device.send_configuration` through `_try_command`; otherwise log one error
and do not touch the device. -/
def send_configuration (e : Entity) (r : DeviceResult) : Entity × List Event :=
  match e.air_condition_model with
  | some m =>
      let p : PushConfig :=
        { model := m
          power := e.state
          mode := e.current_operation
          target_temperature := e.target_temperature
          fan_speed := e.current_fan_mode
          swing_mode := e.current_swing_mode
          led := .off }
      let (e1, _result, ev) := try_command e r
      (e1, .push p :: ev)
  | none => (e, [.errorLog])

/-- `async_set_temperature` (lines 315-324): update target temperature and/or
operation mode when the corresponding keyword argument is present, then push
the full configuration. -/
def async_set_temperature (e : Entity) (temp : Option ℚ) (opMode : Option String)
    (r : DeviceResult) : Entity × List Event :=
  let e1 :=
    match temp with
    | some t => { e with target_temperature := some t }
    | none => e
  let e2 :=
    match opMode with
    | some m => { e1 with current_operation := some m }
    | none => e1
  send_configuration e2 r

/-- `async_set_swing_mode` (lines 326-330). -/
def async_set_swing_mode (e : Entity) (m : String) (r : DeviceResult) :
    Entity × List Event :=
  send_configuration { e with current_swing_mode := some m } r

/-- `async_set_fan_mode` (lines 332-336). -/
def async_set_fan_mode (e : Entity) (m : String) (r : DeviceResult) :
    Entity × List Event :=
  send_configuration { e with current_fan_mode := some m } r

/-- `async_set_operation_mode` (lines 338-342). -/
def async_set_operation_mode (e : Entity) (m : String) (r : DeviceResult) :
    Entity × List Event :=
  send_configuration { e with current_operation := some m } r

/-- Decimal value of a digit list, most significant first. -/
def digitsVal (l : List Char) : ℕ :=
  l.foldl (fun n c => n * 10 + (c.toNat - 48)) 0

/-- Modelled from the spec: Python's builtin `float()` on plain decimal string
literals (optional sign, integer digits, optional fractional part), returning
`none` where `float()` raises `ValueError`.  Exponent, infinity and NaN forms
are outside the inputs the module's contract exercises.  The result is the
signed decimal mantissa together with the number of fractional digits. -/
def parsePyDecimal (s : String) : Option (ℤ × ℕ) :=
  let cs := s.toList
  let signed : ℤ × List Char :=
    match cs with
    | '+' :: t => (1, t)
    | '-' :: t => (-1, t)
    | _ => (1, cs)
  let intPart := signed.2.takeWhile Char.isDigit
  let rest := signed.2.dropWhile Char.isDigit
  match rest with
  | [] =>
      if intPart.isEmpty then none
      else some (signed.1 * digitsVal intPart, 0)
  | '.' :: t =>
      let fracPart := t.takeWhile Char.isDigit
      let rest2 := t.dropWhile Char.isDigit
      if rest2.isEmpty && !(intPart.isEmpty && fracPart.isEmpty) then
        some (signed.1 * (digitsVal intPart * 10 ^ fracPart.length + digitsVal fracPart),
          fracPart.length)
      else none
  | _ => none

/-- The rational value of a parsed decimal literal: mantissa over the power of
ten given by the fractional length. -/
def parsePyFloat (s : String) : Option ℚ :=
  (parsePyDecimal s).map fun p => (p.1 : ℚ) / (10 : ℚ) ^ p.2

/-- The external sensor entity's state as read by `_async_update_temp`:
`state.state` (`none` models Python `None`) and the unit-of-measurement
attribute. -/
structure SensorState where
  state : Option String
  unit : Option String
deriving DecidableEq, Repr

/-- The host platform's `hass.config.units.temperature` conversion, an
external collaborator: it takes the parsed value and the reported unit and
yields the value in the display unit.  It is a parameter of the embedding. -/
abbrev Convert := ℚ → Option String → ℚ

/-- `_async_update_temp` (lines 138-150): ignore an absent or `'unknown'`
state; otherwise parse the value as a float and store the converted reading;
on a `ValueError` log one error and keep the cached reading. -/
def async_update_temp (cv : Convert) (e : Entity) (st : SensorState) :
    Entity × List Event :=
  match st.state with
  | none => (e, [])
  | some v =>
      if v = "unknown" then (e, [])
      else
        match parsePyFloat v with
        | some q => ({ e with current_temperature := some (cv q st.unit) }, [])
        | none => (e, [.errorLog])

/-- `_async_sensor_changed` (lines 152-157): ignore a vanished state, else
defer to `_async_update_temp`. -/
def async_sensor_changed (cv : Convert) (e : Entity) (newState : Option SensorState) :
    Entity × List Event :=
  match newState with
  | none => (e, [])
  | some st => async_update_temp cv e st

/-- The transport method `_send_custom_command` dispatches to: the native
protocol sender `device.send_command`, or the learned-infrared sender
`device.send_ir_code`. -/
inductive CommandPath where
  | native
  | irCode
deriving DecidableEq, Repr

/-- `_send_custom_command` (lines 376-385) dispatch: commands whose first two
characters are `"01"` go to the native protocol sender, everything else to
the learned-infrared sender; nothing else about the string is inspected. -/
def send_custom_command_path (command : String) : CommandPath :=
  if command.take 2 = "01" then .native else .irCode

/-- One externally triggered method call on the entity, together with the
device-I/O outcome it observes (ignored by calls that do no device I/O). -/
inductive Op where
  | poll (r : PollResult)
  | turnOn (r : DeviceResult)
  | turnOff (r : DeviceResult)
  | setTemperature (temp : Option ℚ) (opMode : Option String) (r : DeviceResult)
  | setSwingMode (m : String) (r : DeviceResult)
  | setFanMode (m : String) (r : DeviceResult)
  | setOperationMode (m : String) (r : DeviceResult)
  | sensorChanged (s : Option SensorState)
deriving DecidableEq, Repr

/-- Whether the call is one of the four configuration setters. -/
def Op.isSetter : Op → Bool
  | .setTemperature _ _ _ => true
  | .setSwingMode _ _ => true
  | .setFanMode _ _ => true
  | .setOperationMode _ _ => true
  | _ => false

/-- One step of the entity: dispatch the call to its method. -/
def step (cv : Convert) (e : Entity) (op : Op) : Entity × List Event :=
  match op with
  | .poll r => async_update e r
  | .turnOn r => async_turn_on e r
  | .turnOff r => async_turn_off e r
  | .setTemperature t m r => async_set_temperature e t m r
  | .setSwingMode m r => async_set_swing_mode e m r
  | .setFanMode m r => async_set_fan_mode e m r
  | .setOperationMode m r => async_set_operation_mode e m r
  | .sensorChanged s => async_sensor_changed cv e s

/-- Run a sequence of calls from a state, keeping only the final state. -/
def runOps (cv : Convert) (e : Entity) (ops : List Op) : Entity :=
  ops.foldl (fun acc op => (step cv acc op).1) e

/-- A state the entity can actually be in: reachable from construction by
some sequence of calls. -/
def Reachable (cv : Convert) (e : Entity) : Prop :=
  ∃ ops : List Op, runOps cv initEntity ops = e

/-- Number of configuration pushes among the events of a call. -/
def pushCount (evs : List Event) : ℕ :=
  (evs.filter fun ev => match ev with | .push _ => true | _ => false).length

/-- Number of error-log lines among the events of a call. -/
def errorLogCount (evs : List Event) : ℕ :=
  (evs.filter fun ev => match ev with | .errorLog => true | _ => false).length

/-- The identity conversion: what `hass.config.units.temperature` computes
when the reported unit already is the display unit. -/
def idConvert : Convert := fun q _ => q

/-- A concrete status record used to exercise the theorems. -/
def status0 : Status :=
  { is_on := true
    air_condition_model := "010500380400222002"
    load_power := 700
    target_temperature := 24
    swing_mode := "On"
    fan_speed := "Low"
    mode := "Cool"
    led := "off" }

/-- A second concrete status record, reporting an empty model string. -/
def status1 : Status :=
  { is_on := false
    air_condition_model := ""
    load_power := 0
    target_temperature := 26
    swing_mode := "Off"
    fan_speed := "Auto"
    mode := "Heat"
    led := "on" }

/-- Python parses the literal `"21.5"` to the rational 43/2. -/
lemma parsePyFloat_215 : parsePyFloat "21.5" = some (43 / 2 : ℚ) := by
  have h : parsePyDecimal "21.5" = some (215, 1) := by decide
  simp [parsePyFloat, h]
  norm_num

/-- Python raises `ValueError` on the literal `"abc"`. -/
lemma parsePyFloat_abc : parsePyFloat "abc" = none := by
  have h : parsePyDecimal "abc" = none := by decide
  simp [parsePyFloat, h]

/-- Claim C7: a command dispatched through the wrapper returns success exactly
when no transport exception is raised and the device acknowledges with the
success token `['ok']`; any other acknowledgment yields failure with the state
untouched, and a transport exception is consumed into a logged failure plus an
availability downgrade (the embedding of `_try_command` is a total function:
the exception never escapes). -/
theorem C7_try_command_success_iff (e : Entity) (r : DeviceResult) :
    ((try_command e r).2.1 = true ↔ r = DeviceResult.ack SUCCESS) ∧
    (∀ l, try_command e (DeviceResult.ack l) = (e, l == SUCCESS, [])) ∧
    try_command e DeviceResult.exc =
      ({ e with available := false }, false, [Event.errorLog]) := by
  refine ⟨?_, fun l => rfl, rfl⟩
  cases r with
  | ack l => simp [try_command]
  | exc => simp [try_command]

/-- Claim C8: the raw-command sender dispatches on the first two characters of
the command string only; the `"01"` two-character head goes to the native
protocol transport, everything else to the learned-infrared transport. -/
theorem C8_raw_command_dispatch :
    (∀ c : String, send_custom_command_path c = CommandPath.native ↔ c.take 2 = "01") ∧
    (∀ c₁ c₂ : String, c₁.take 2 = c₂.take 2 →
      send_custom_command_path c₁ = send_custom_command_path c₂) ∧
    send_custom_command_path "0123" = CommandPath.native ∧
    send_custom_command_path "FEabcd" = CommandPath.irCode := by
  refine ⟨fun c => ?_, fun c₁ c₂ h => ?_, by decide, by decide⟩
  · unfold send_custom_command_path
    split <;> simp_all
  · unfold send_custom_command_path
    rw [h]

/-- Witness for C8 at concrete inputs: two commands that agree on their first
two characters dispatch to the same transport. -/
theorem C8_witness :
    send_custom_command_path "0123" = send_custom_command_path "01ab" :=
  C8_raw_command_dispatch.2.1 "0123" "01ab" (by decide)

/-- A run consisting only of failed polls just clears the availability flag. -/
lemma runOps_failed_polls (cv : Convert) (e : Entity) (ops : List Op)
    (hops : ∀ op ∈ ops, op = Op.poll PollResult.exc) (hne : ops ≠ []) :
    runOps cv e ops = { e with available := false } := by
  induction ops generalizing e with
  | nil => exact absurd rfl hne
  | cons a t ih =>
      have ha : a = Op.poll PollResult.exc := hops a (by simp)
      subst ha
      have hstep : runOps cv e (Op.poll PollResult.exc :: t) =
          runOps cv { e with available := false } t := rfl
      rcases Decidable.em (t = []) with ht | ht
      · subst ht
        rfl
      · rw [hstep, ih { e with available := false } (fun op hop => hops op (by simp [hop])) ht]

/-- Claim C1: after any nonempty sequence of failed polls, the availability
flag reads false and every previously cached DeviceState field — the on/off
flag, operation mode, fan speed, swing mode, target temperature, model, and
the attribute map holding load power and LED — is exactly what it was before
the sequence: a failed poll performs no partial overwrite. -/
theorem C1_failed_polls_no_overwrite (cv : Convert) (e : Entity) (ops : List Op)
    (hops : ∀ op ∈ ops, op = Op.poll PollResult.exc) (hne : ops ≠ []) :
    (runOps cv e ops).available = false ∧
    (runOps cv e ops).state = e.state ∧
    (runOps cv e ops).current_operation = e.current_operation ∧
    (runOps cv e ops).current_fan_mode = e.current_fan_mode ∧
    (runOps cv e ops).current_swing_mode = e.current_swing_mode ∧
    (runOps cv e ops).target_temperature = e.target_temperature ∧
    (runOps cv e ops).air_condition_model = e.air_condition_model ∧
    (runOps cv e ops).state_attrs = e.state_attrs ∧
    (runOps cv e ops).current_temperature = e.current_temperature := by
  rw [runOps_failed_polls cv e ops hops hne]
  exact ⟨rfl, rfl, rfl, rfl, rfl, rfl, rfl, rfl, rfl⟩

/-- Witness for C1: two consecutive failed polls on a populated entity leave
every cached field as it was and read unavailable. -/
theorem C1_witness :
    (runOps idConvert (runOps idConvert initEntity [Op.poll (PollResult.ok status0)])
        [Op.poll PollResult.exc, Op.poll PollResult.exc]).available = false ∧
    (runOps idConvert (runOps idConvert initEntity [Op.poll (PollResult.ok status0)])
        [Op.poll PollResult.exc, Op.poll PollResult.exc]).state =
      (runOps idConvert initEntity [Op.poll (PollResult.ok status0)]).state ∧
    (runOps idConvert (runOps idConvert initEntity [Op.poll (PollResult.ok status0)])
        [Op.poll PollResult.exc, Op.poll PollResult.exc]).current_operation =
      (runOps idConvert initEntity [Op.poll (PollResult.ok status0)]).current_operation ∧
    (runOps idConvert (runOps idConvert initEntity [Op.poll (PollResult.ok status0)])
        [Op.poll PollResult.exc, Op.poll PollResult.exc]).current_fan_mode =
      (runOps idConvert initEntity [Op.poll (PollResult.ok status0)]).current_fan_mode ∧
    (runOps idConvert (runOps idConvert initEntity [Op.poll (PollResult.ok status0)])
        [Op.poll PollResult.exc, Op.poll PollResult.exc]).current_swing_mode =
      (runOps idConvert initEntity [Op.poll (PollResult.ok status0)]).current_swing_mode ∧
    (runOps idConvert (runOps idConvert initEntity [Op.poll (PollResult.ok status0)])
        [Op.poll PollResult.exc, Op.poll PollResult.exc]).target_temperature =
      (runOps idConvert initEntity [Op.poll (PollResult.ok status0)]).target_temperature ∧
    (runOps idConvert (runOps idConvert initEntity [Op.poll (PollResult.ok status0)])
        [Op.poll PollResult.exc, Op.poll PollResult.exc]).air_condition_model =
      (runOps idConvert initEntity [Op.poll (PollResult.ok status0)]).air_condition_model ∧
    (runOps idConvert (runOps idConvert initEntity [Op.poll (PollResult.ok status0)])
        [Op.poll PollResult.exc, Op.poll PollResult.exc]).state_attrs =
      (runOps idConvert initEntity [Op.poll (PollResult.ok status0)]).state_attrs ∧
    (runOps idConvert (runOps idConvert initEntity [Op.poll (PollResult.ok status0)])
        [Op.poll PollResult.exc, Op.poll PollResult.exc]).current_temperature =
      (runOps idConvert initEntity [Op.poll (PollResult.ok status0)]).current_temperature :=
  C1_failed_polls_no_overwrite idConvert
    (runOps idConvert initEntity [Op.poll (PollResult.ok status0)])
    [Op.poll PollResult.exc, Op.poll PollResult.exc]
    (by
      intro op hop
      simp only [List.mem_cons, List.not_mem_nil, or_false] at hop
      rcases hop with h | h <;> exact h)
    (by simp)

/-- Once the model identifier is cached, no single call changes it. -/
lemma model_preserved_step (cv : Convert) (e : Entity) (op : Op) (m : String)
    (h : e.air_condition_model = some m) :
    (step cv e op).1.air_condition_model = some m := by
  cases op with
  | poll r =>
      cases r with
      | ok s => simp [step, async_update, h]
      | exc => simpa [step, async_update] using h
  | turnOn r =>
      cases r <;> simp [step, async_turn_on, try_command] <;>
        first
          | (split <;> simpa using h)
          | simpa using h
  | turnOff r =>
      cases r <;> simp [step, async_turn_off, try_command] <;>
        first
          | (split <;> simpa using h)
          | simpa using h
  | setTemperature t om r =>
      cases t <;> cases om <;>
        simp only [step, async_set_temperature, send_configuration, try_command, h] <;>
        cases r <;> simp [h]
  | setSwingMode m2 r =>
      simp only [step, async_set_swing_mode, send_configuration, try_command, h]
      cases r <;> simp
  | setFanMode m2 r =>
      simp only [step, async_set_fan_mode, send_configuration, try_command, h]
      cases r <;> simp
  | setOperationMode m2 r =>
      simp only [step, async_set_operation_mode, send_configuration, try_command, h]
      cases r <;> simp
  | sensorChanged s =>
      cases s with
      | none => simpa [step, async_sensor_changed] using h
      | some st =>
          simp only [step, async_sensor_changed, async_update_temp]
          cases st.state with
          | none => simpa using h
          | some v =>
              simp only
              split
              · simpa using h
              · cases parsePyFloat v <;> simpa using h

/-- Once the model identifier is cached, no sequence of calls changes it. -/
lemma model_preserved_runOps (cv : Convert) (e : Entity) (m : String) (ops : List Op)
    (h : e.air_condition_model = some m) :
    (runOps cv e ops).air_condition_model = some m := by
  induction ops generalizing e with
  | nil => exact h
  | cons a t ih => exact ih (step cv e a).1 (model_preserved_step cv e a m h)

/-- Claim C2: from a state whose model identifier is still unset, one
successful poll reporting model `s.air_condition_model` caches exactly that
model, and every subsequent sequence of calls — later successful polls
reporting a different or empty model included — leaves it unchanged. -/
theorem C2_model_latched (cv : Convert) (e : Entity) (s : Status) (ops : List Op)
    (h : e.air_condition_model = none) :
    (step cv e (Op.poll (PollResult.ok s))).1.air_condition_model =
      some s.air_condition_model ∧
    (runOps cv (step cv e (Op.poll (PollResult.ok s))).1 ops).air_condition_model =
      some s.air_condition_model := by
  have h1 : (step cv e (Op.poll (PollResult.ok s))).1.air_condition_model =
      some s.air_condition_model := by
    simp [step, async_update, h]
  exact ⟨h1, model_preserved_runOps cv _ _ ops h1⟩

/-- Witness for C2: a first poll reporting a nonempty model, followed by a
successful poll reporting the empty model and by a failed poll, keeps the
first model cached. -/
theorem C2_witness :
    (step idConvert initEntity (Op.poll (PollResult.ok status0))).1.air_condition_model =
      some status0.air_condition_model ∧
    (runOps idConvert (step idConvert initEntity (Op.poll (PollResult.ok status0))).1
        [Op.poll (PollResult.ok status1), Op.poll PollResult.exc]).air_condition_model =
      some status0.air_condition_model :=
  C2_model_latched idConvert initEntity status0
    [Op.poll (PollResult.ok status1), Op.poll PollResult.exc] rfl

/-- Claim C6: turn on and turn off update the local on/off flag only when the
dispatched adapter call succeeds; on any failure the prior flag survives.  In
particular a successful turn-on followed by a turn-off that raises a transport
exception leaves the flag at true. -/
theorem C6_optimistic_on_off (cv : Convert) (e : Entity) (r : DeviceResult) :
    ((step cv e (Op.turnOn r)).1.state =
      if r = DeviceResult.ack SUCCESS then some true else e.state) ∧
    ((step cv e (Op.turnOff r)).1.state =
      if r = DeviceResult.ack SUCCESS then some false else e.state) ∧
    (runOps cv e [Op.turnOn (DeviceResult.ack SUCCESS), Op.turnOff DeviceResult.exc]).state =
      some true := by
  refine ⟨?_, ?_, ?_⟩
  · cases r with
    | ack l =>
        rcases Decidable.em (l = SUCCESS) with hl | hl <;>
          simp [step, async_turn_on, try_command, hl]
    | exc => simp [step, async_turn_on, try_command]
  · cases r with
    | ack l =>
        rcases Decidable.em (l = SUCCESS) with hl | hl <;>
          simp [step, async_turn_off, try_command, hl]
    | exc => simp [step, async_turn_off, try_command]
  · simp [runOps, step, async_turn_on, async_turn_off, try_command]

/-- Claim C3: a configuration push reaches the device exactly when the model
identifier is cached; while the model is unset, each of the four setters
performs zero pushes and writes exactly one error-log line. -/
theorem C3_push_guard (cv : Convert) :
    (∀ (e : Entity) (r : DeviceResult),
      pushCount (send_configuration e r).2 = 1 ↔ e.air_condition_model ≠ none) ∧
    (∀ (e : Entity) (op : Op), op.isSetter = true → e.air_condition_model = none →
      pushCount (step cv e op).2 = 0 ∧ errorLogCount (step cv e op).2 = 1) := by
  constructor
  · intro e r
    cases hm : e.air_condition_model with
    | none => simp [send_configuration, hm, pushCount]
    | some m =>
        cases r <;> simp [send_configuration, hm, pushCount, try_command]
  · intro e op hset hm
    cases op with
    | poll r => simp [Op.isSetter] at hset
    | turnOn r => simp [Op.isSetter] at hset
    | turnOff r => simp [Op.isSetter] at hset
    | sensorChanged s => simp [Op.isSetter] at hset
    | setTemperature t om r =>
        cases t <;> cases om <;>
          simp [step, async_set_temperature, send_configuration, hm, pushCount,
            errorLogCount]
    | setSwingMode m r =>
        simp [step, async_set_swing_mode, send_configuration, hm, pushCount, errorLogCount]
    | setFanMode m r =>
        simp [step, async_set_fan_mode, send_configuration, hm, pushCount, errorLogCount]
    | setOperationMode m r =>
        simp [step, async_set_operation_mode, send_configuration, hm, pushCount,
          errorLogCount]

/-- Witness for C3 at concrete inputs: on the freshly constructed entity the
model is unset, so a push is not attempted, and a fan-mode setter performs
zero pushes and one error log. -/
theorem C3_witness :
    (pushCount (send_configuration initEntity (DeviceResult.ack SUCCESS)).2 = 1 ↔
      initEntity.air_condition_model ≠ none) ∧
    (pushCount (step idConvert initEntity (Op.setFanMode "Low" (DeviceResult.ack SUCCESS))).2
        = 0 ∧
      errorLogCount
        (step idConvert initEntity (Op.setFanMode "Low" (DeviceResult.ack SUCCESS))).2 = 1) :=
  ⟨(C3_push_guard idConvert).1 initEntity (DeviceResult.ack SUCCESS),
    (C3_push_guard idConvert).2 initEntity (Op.setFanMode "Low" (DeviceResult.ack SUCCESS))
      rfl rfl⟩

/-- Claim C5: a sensor update with an absent state or the sentinel `'unknown'`
leaves the cached current temperature unchanged; the numeric value `"21.5"`,
when the unit conversion into the display unit is the identity on it, sets it
to 21.5; the non-numeric value `"abc"` leaves the cache unchanged and writes
one error-log line. -/
theorem C5_sensor_temperature (cv : Convert) (u : Option String) (e : Entity)
    (hcv : cv (43 / 2 : ℚ) u = (43 / 2 : ℚ)) :
    ((async_sensor_changed cv e none).1.current_temperature = e.current_temperature) ∧
    ((async_update_temp cv e { state := none, unit := u }).1.current_temperature =
      e.current_temperature) ∧
    ((async_update_temp cv e { state := some "unknown", unit := u }).1.current_temperature =
      e.current_temperature) ∧
    ((async_update_temp cv e { state := some "21.5", unit := u }).1.current_temperature =
      some (43 / 2 : ℚ)) ∧
    ((async_update_temp cv e { state := some "abc", unit := u }).1.current_temperature =
      e.current_temperature) ∧
    errorLogCount (async_update_temp cv e { state := some "abc", unit := u }).2 = 1 := by
  refine ⟨rfl, rfl, ?_, ?_, ?_, ?_⟩
  · simp [async_update_temp]
  · simp [async_update_temp, parsePyFloat_215, hcv]
  · simp [async_update_temp, parsePyFloat_abc]
  · simp [async_update_temp, parsePyFloat_abc, errorLogCount]

/-- Witness for C5 at a concrete conversion (the identity conversion, which
is what the display-unit conversion computes on a matching unit) and a
concrete entity. -/
theorem C5_witness :
    ((async_sensor_changed idConvert initEntity none).1.current_temperature =
      initEntity.current_temperature) ∧
    ((async_update_temp idConvert initEntity
        { state := none, unit := some "C" }).1.current_temperature =
      initEntity.current_temperature) ∧
    ((async_update_temp idConvert initEntity
        { state := some "unknown", unit := some "C" }).1.current_temperature =
      initEntity.current_temperature) ∧
    ((async_update_temp idConvert initEntity
        { state := some "21.5", unit := some "C" }).1.current_temperature =
      some (43 / 2 : ℚ)) ∧
    ((async_update_temp idConvert initEntity
        { state := some "abc", unit := some "C" }).1.current_temperature =
      initEntity.current_temperature) ∧
    errorLogCount
      (async_update_temp idConvert initEntity
        { state := some "abc", unit := some "C" }).2 = 1 :=
  C5_sensor_temperature idConvert (some "C") initEntity rfl

/-- The entity with only the LED entry of its attribute map replaced. -/
def setAttrLed (e : Entity) (l : Option String) : Entity :=
  { e with state_attrs := { e.state_attrs with led := l } }

/-- Claim C9 (implicit): every configuration push carries the LED field as the
constant Off, and the cached LED attribute is never read back into a push: the
events of any call are unchanged when the cached LED attribute is replaced by
anything. -/
theorem C9_push_led_always_off (cv : Convert) :
    (∀ (e : Entity) (op : Op) (p : PushConfig),
      Event.push p ∈ (step cv e op).2 → p.led = LedSetting.off) ∧
    (∀ (e : Entity) (op : Op) (l : Option String),
      (step cv (setAttrLed e l) op).2 = (step cv e op).2) := by
  constructor
  · intro e op p hp
    cases op with
    | poll r => cases r <;> simp [step, async_update] at hp
    | turnOn r => cases r <;> simp [step, async_turn_on, try_command] at hp
    | turnOff r => cases r <;> simp [step, async_turn_off, try_command] at hp
    | setTemperature t om r =>
        cases t <;> cases om <;>
          cases hm : e.air_condition_model <;>
            cases r <;>
              simp [step, async_set_temperature, send_configuration, try_command, hm] at hp <;>
                simp [hp]
    | setSwingMode m r =>
        cases hm : e.air_condition_model <;>
          cases r <;>
            simp [step, async_set_swing_mode, send_configuration, try_command, hm] at hp <;>
              simp [hp]
    | setFanMode m r =>
        cases hm : e.air_condition_model <;>
          cases r <;>
            simp [step, async_set_fan_mode, send_configuration, try_command, hm] at hp <;>
              simp [hp]
    | setOperationMode m r =>
        cases hm : e.air_condition_model <;>
          cases r <;>
            simp [step, async_set_operation_mode, send_configuration, try_command, hm] at hp <;>
              simp [hp]
    | sensorChanged s =>
        cases s with
        | none => simp [step, async_sensor_changed] at hp
        | some st =>
            obtain ⟨sv, su⟩ := st
            cases sv with
            | none => simp [step, async_sensor_changed, async_update_temp] at hp
            | some v =>
                simp only [step, async_sensor_changed, async_update_temp] at hp
                rcases Decidable.em (v = "unknown") with hv | hv
                · simp [hv] at hp
                · simp only [if_neg hv] at hp
                  cases hpv : parsePyFloat v <;> simp [hpv] at hp
  · intro e op l
    cases op with
    | poll r => cases r <;> rfl
    | turnOn r => cases r <;> rfl
    | turnOff r => cases r <;> rfl
    | setTemperature t om r =>
        cases t <;> cases om <;>
          cases hm : e.air_condition_model <;>
            cases r <;>
              simp [step, async_set_temperature, send_configuration, try_command,
                setAttrLed, hm]
    | setSwingMode m r =>
        cases hm : e.air_condition_model <;>
          cases r <;>
            simp [step, async_set_swing_mode, send_configuration, try_command, setAttrLed, hm]
    | setFanMode m r =>
        cases hm : e.air_condition_model <;>
          cases r <;>
            simp [step, async_set_fan_mode, send_configuration, try_command, setAttrLed, hm]
    | setOperationMode m r =>
        cases hm : e.air_condition_model <;>
          cases r <;>
            simp [step, async_set_operation_mode, send_configuration, try_command,
              setAttrLed, hm]
    | sensorChanged s =>
        cases s with
        | none => rfl
        | some st =>
            simp only [step, async_sensor_changed, async_update_temp]
            cases st.state with
            | none => rfl
            | some v =>
                simp only
                rcases Decidable.em (v = "unknown") with hv | hv
                · simp [hv]
                · simp only [if_neg hv]
                  cases parsePyFloat v <;> rfl

/-- Witness for C9: the push emitted by a concrete fan-mode setter on a
polled entity carries the LED field Off. -/
theorem C9_witness :
    ({ model := "010500380400222002", power := some true, mode := some "Cool",
       target_temperature := some 24, fan_speed := some "Low", swing_mode := some "On",
       led := LedSetting.off } : PushConfig).led = LedSetting.off :=
  (C9_push_led_always_off idConvert).1
    (runOps idConvert initEntity [Op.poll (PollResult.ok status0)])
    (Op.setFanMode "Low" (DeviceResult.ack SUCCESS)) _ (by simp [runOps, step,
      async_set_fan_mode, send_configuration, try_command, async_update, initEntity, status0])

/-- Whether the call is a poll that got a status back. -/
def Op.isSuccessPoll : Op → Bool
  | .poll (.ok _) => true
  | _ => false

/-- The entity right after one successful poll of `status0`: a concrete
reachable state whose availability flag is true. -/
def entityAfterPoll : Entity :=
  runOps idConvert initEntity [Op.poll (PollResult.ok status0)]

/-- Claim C4, counterexample: after a successful poll the availability flag is
true; a turn-on command then acknowledged with `["error"]` (no transport
exception) has result failure, yet immediately afterwards the availability
flag still reads true — `_try_command` only downgrades availability in its
exception branch, not when the acknowledgment merely differs from the success
token. -/
theorem C4_counterexample :
    entityAfterPoll.available = true ∧
    (try_command entityAfterPoll (DeviceResult.ack ["error"])).2.1 = false ∧
    (try_command entityAfterPoll (DeviceResult.ack ["error"])).1.available = true ∧
    (step idConvert entityAfterPoll
      (Op.turnOn (DeviceResult.ack ["error"]))).1.available = true := by
  refine ⟨rfl, by decide, rfl, by decide⟩

/-- Claim C4 as amended: the availability flag starts false, becomes true only
through a successful poll, and is downgraded to false exactly by transport
exceptions — a failed poll or a dispatched command that raises — while a
command that fails because the acknowledgment differs from the success token
leaves the flag unchanged. -/
theorem C4_availability_amended (cv : Convert) :
    initEntity.available = false ∧
    (∀ (e : Entity) (op : Op), op.isSuccessPoll = false →
      (step cv e op).1.available = true → e.available = true) ∧
    (∀ (e : Entity) (s : Status),
      (step cv e (Op.poll (PollResult.ok s))).1.available = true) ∧
    (∀ e : Entity, (step cv e (Op.poll PollResult.exc)).1.available = false) ∧
    (∀ e : Entity, (try_command e DeviceResult.exc).1.available = false) ∧
    (∀ (e : Entity) (l : List String),
      (try_command e (DeviceResult.ack l)).1.available = e.available) ∧
    (∀ e : Entity, (step cv e (Op.turnOn DeviceResult.exc)).1.available = false) ∧
    (∀ e : Entity, (step cv e (Op.turnOff DeviceResult.exc)).1.available = false) := by
  refine ⟨rfl, ?_, fun e s => rfl, fun e => rfl, fun e => rfl, fun e l => rfl,
    fun e => rfl, fun e => rfl⟩
  intro e op hop h
  obtain ⟨av, st0, sa, ct, csm, co, cfm, acm, tt⟩ := e
  cases op with
  | poll r =>
      cases r with
      | ok s => simp [Op.isSuccessPoll] at hop
      | exc => simp [step, async_update] at h
  | turnOn r =>
      cases r with
      | ack l =>
          simp only [step, async_turn_on, try_command] at h
          split at h <;> exact h
      | exc => simp [step, async_turn_on, try_command] at h
  | turnOff r =>
      cases r with
      | ack l =>
          simp only [step, async_turn_off, try_command] at h
          split at h <;> exact h
      | exc => simp [step, async_turn_off, try_command] at h
  | setTemperature t om r =>
      cases t <;> cases om <;> cases acm <;> cases r <;>
        simp [step, async_set_temperature, send_configuration, try_command] at h <;>
          exact h
  | setSwingMode m r =>
      cases acm <;> cases r <;>
        simp [step, async_set_swing_mode, send_configuration, try_command] at h <;>
          exact h
  | setFanMode m r =>
      cases acm <;> cases r <;>
        simp [step, async_set_fan_mode, send_configuration, try_command] at h <;>
          exact h
  | setOperationMode m r =>
      cases acm <;> cases r <;>
        simp [step, async_set_operation_mode, send_configuration, try_command] at h <;>
          exact h
  | sensorChanged s =>
      cases s with
      | none => exact h
      | some st =>
          obtain ⟨sv, su⟩ := st
          cases sv with
          | none => exact h
          | some v =>
              simp only [step, async_sensor_changed, async_update_temp] at h
              rcases Decidable.em (v = "unknown") with hv | hv
              · simpa [hv] using h
              · simp only [if_neg hv] at h
                cases hpv : parsePyFloat v <;> simp [hpv] at h <;> exact h

/-- Witness for C4 (amended) at concrete inputs: a sensor notification (not a
successful poll) found the availability flag true, so it was already true. -/
theorem C4_witness : entityAfterPoll.available = true :=
  (C4_availability_amended idConvert).2.1 entityAfterPoll (Op.sensorChanged none) rfl rfl

/-- The five cached fields the configuration push reads besides the model. -/
def FieldsSet (e : Entity) : Prop :=
  e.state ≠ none ∧ e.current_operation ≠ none ∧ e.current_fan_mode ≠ none ∧
    e.current_swing_mode ≠ none ∧ e.target_temperature ≠ none

/-- One call preserves the invariant that a cached model implies all five
push-read fields are cached. -/
lemma fieldsSet_invariant_step (cv : Convert) (e : Entity) (op : Op)
    (h : e.air_condition_model ≠ none → FieldsSet e) :
    (step cv e op).1.air_condition_model ≠ none → FieldsSet (step cv e op).1 := by
  obtain ⟨av, st0, sa, ct, csm, co, cfm, acm, tt⟩ := e
  cases op with
  | poll r =>
      cases r with
      | ok s => intro _; simp [step, async_update, FieldsSet]
      | exc => intro hm; exact h hm
  | turnOn r =>
      cases r with
      | ack l =>
          intro hm
          simp only [step, async_turn_on, try_command] at hm ⊢
          rw [apply_ite Entity.air_condition_model, ite_self] at hm
          have hf := h hm
          simp only [FieldsSet] at hf ⊢
          split
          · exact ⟨by simp, hf.2.1, hf.2.2.1, hf.2.2.2.1, hf.2.2.2.2⟩
          · exact hf
      | exc => intro hm; exact h hm
  | turnOff r =>
      cases r with
      | ack l =>
          intro hm
          simp only [step, async_turn_off, try_command] at hm ⊢
          rw [apply_ite Entity.air_condition_model, ite_self] at hm
          have hf := h hm
          simp only [FieldsSet] at hf ⊢
          split
          · exact ⟨by simp, hf.2.1, hf.2.2.1, hf.2.2.2.1, hf.2.2.2.2⟩
          · exact hf
      | exc => intro hm; exact h hm
  | setTemperature t om r =>
      cases acm with
      | none => intro hm; cases t <;> cases om <;> exact absurd rfl hm
      | some am =>
          intro hm
          have hf := h (by simp)
          simp only [FieldsSet] at hf ⊢
          cases t <;> cases om <;> cases r <;>
            simp only [step, async_set_temperature, send_configuration, try_command] <;>
            exact ⟨hf.1, by first | exact hf.2.1 | simp, hf.2.2.1, hf.2.2.2.1,
              by first | exact hf.2.2.2.2 | simp⟩
  | setSwingMode m r =>
      cases acm with
      | none => intro hm; exact absurd rfl hm
      | some am =>
          intro hm
          have hf := h (by simp)
          simp only [FieldsSet] at hf ⊢
          cases r <;>
            simp only [step, async_set_swing_mode, send_configuration, try_command] <;>
            exact ⟨hf.1, hf.2.1, hf.2.2.1, by simp, hf.2.2.2.2⟩
  | setFanMode m r =>
      cases acm with
      | none => intro hm; exact absurd rfl hm
      | some am =>
          intro hm
          have hf := h (by simp)
          simp only [FieldsSet] at hf ⊢
          cases r <;>
            simp only [step, async_set_fan_mode, send_configuration, try_command] <;>
            exact ⟨hf.1, hf.2.1, by simp, hf.2.2.2.1, hf.2.2.2.2⟩
  | setOperationMode m r =>
      cases acm with
      | none => intro hm; exact absurd rfl hm
      | some am =>
          intro hm
          have hf := h (by simp)
          simp only [FieldsSet] at hf ⊢
          cases r <;>
            simp only [step, async_set_operation_mode, send_configuration, try_command] <;>
            exact ⟨hf.1, by simp, hf.2.2.1, hf.2.2.2.1, hf.2.2.2.2⟩
  | sensorChanged s =>
      cases s with
      | none => intro hm; exact h hm
      | some st =>
          obtain ⟨sv, su⟩ := st
          cases sv with
          | none => intro hm; exact h hm
          | some v =>
              intro hm
              simp only [step, async_sensor_changed, async_update_temp] at hm ⊢
              rcases Decidable.em (v = "unknown") with hv | hv
              · simp only [if_pos hv] at hm ⊢; exact h hm
              · simp only [if_neg hv] at hm ⊢
                cases hpv : parsePyFloat v <;> simp only [hpv] at hm ⊢ <;> exact h hm

/-- Any run preserves the invariant that a cached model implies all five
push-read fields are cached. -/
lemma fieldsSet_invariant_runOps (cv : Convert) (e : Entity) (ops : List Op)
    (h : e.air_condition_model ≠ none → FieldsSet e) :
    (runOps cv e ops).air_condition_model ≠ none → FieldsSet (runOps cv e ops) := by
  induction ops generalizing e with
  | nil => exact h
  | cons a t ih => exact ih (step cv e a).1 (fieldsSet_invariant_step cv e a h)

/-- Claim C10 (implicit): in every reachable state whose model identifier is
cached, the on/off flag, operation mode, fan mode, swing mode and target
temperature are cached too — the model is only latched by a successful poll,
which assigns them all, and no later call unsets them — so the configuration
push, guarded only on the model, never reads an unset field into its bundle. -/
theorem C10_push_reads_no_nil (cv : Convert) (e : Entity) (hr : Reachable cv e)
    (hm : e.air_condition_model ≠ none) :
    FieldsSet e ∧
    (∀ (r : DeviceResult) (p : PushConfig), Event.push p ∈ (send_configuration e r).2 →
      p.power ≠ none ∧ p.mode ≠ none ∧ p.target_temperature ≠ none ∧
        p.fan_speed ≠ none ∧ p.swing_mode ≠ none) := by
  obtain ⟨ops, hops⟩ := hr
  have hinv : e.air_condition_model ≠ none → FieldsSet e := by
    rw [← hops]
    exact fieldsSet_invariant_runOps cv initEntity ops (fun hc => absurd rfl hc)
  have hf := hinv hm
  refine ⟨hf, ?_⟩
  intro r p hp
  obtain ⟨m, hm2⟩ : ∃ m, e.air_condition_model = some m := by
    cases hacm : e.air_condition_model with
    | none => exact absurd hacm hm
    | some m => exact ⟨m, rfl⟩
  cases r <;> simp only [send_configuration, try_command, hm2, List.mem_cons,
    List.mem_singleton, List.not_mem_nil, or_false] at hp <;>
    [skip; rcases hp with hp | hp] <;>
    first
      | (cases hp; exact ⟨hf.1, hf.2.1, hf.2.2.2.2, hf.2.2.1, hf.2.2.2.1⟩)
      | exact absurd hp (by simp)

/-- Witness for C10: the state after one successful poll is reachable, has a
cached model, all five fields cached, and its concrete push bundle holds no
unset field. -/
theorem C10_witness :
    FieldsSet entityAfterPoll ∧
    (({ model := "010500380400222002", power := some true, mode := some "Cool",
        target_temperature := some 24, fan_speed := some "Low", swing_mode := some "On",
        led := LedSetting.off } : PushConfig).power ≠ none ∧
      ({ model := "010500380400222002", power := some true, mode := some "Cool",
         target_temperature := some 24, fan_speed := some "Low", swing_mode := some "On",
         led := LedSetting.off } : PushConfig).mode ≠ none ∧
      ({ model := "010500380400222002", power := some true, mode := some "Cool",
         target_temperature := some 24, fan_speed := some "Low", swing_mode := some "On",
         led := LedSetting.off } : PushConfig).target_temperature ≠ none ∧
      ({ model := "010500380400222002", power := some true, mode := some "Cool",
         target_temperature := some 24, fan_speed := some "Low", swing_mode := some "On",
         led := LedSetting.off } : PushConfig).fan_speed ≠ none ∧
      ({ model := "010500380400222002", power := some true, mode := some "Cool",
         target_temperature := some 24, fan_speed := some "Low", swing_mode := some "On",
         led := LedSetting.off } : PushConfig).swing_mode ≠ none) :=
  ⟨(C10_push_reads_no_nil idConvert entityAfterPoll
      ⟨[Op.poll (PollResult.ok status0)], rfl⟩ (by decide)).1,
    (C10_push_reads_no_nil idConvert entityAfterPoll
      ⟨[Op.poll (PollResult.ok status0)], rfl⟩ (by decide)).2
      (DeviceResult.ack SUCCESS) _ (by simp [entityAfterPoll, runOps, step, async_update,
        send_configuration, try_command, initEntity, status0])⟩

end XiaomiAC
